import Mathlib

/-!
Shallow embedding of the accounting core of the access-protocol staking
program: the entity layouts and operations of
`src/smart-contract/program/src/state.rs` and the two processors
`close_stake_pool.rs` and `claim_bond_rewards.rs`.

Machine integers are modelled as `Nat` with explicit bounds (`u64` values are
below `2 ^ 64`, `u128` below `2 ^ 128`, `u16` below `2 ^ 16`); checked Rust
arithmetic becomes `Option`-valued helpers.  Functions that can return a Rust
`Err` or abort through `unwrap`/overflow-checked arithmetic return `RunResult`,
where `panicked` stands for an aborted transaction (nothing is persisted).
Helpers that live in `utils.rs` — a file that is not part of the sources —
are modelled from the spec and say so in their doc comments.
-/

/-- Error variants of the program that the modelled operations can produce
(state.rs `AccessError`; the `MediaError::Overflow` used by the claim
processor is the same overflow error). -/
inductive AccessError where
  | Overflow
  | Underflow
  | DataTypeMismatch
  | PoolNotEmpty
  deriving DecidableEq, Repr

/-- Outcome of running a fallible Rust function: an `Ok` value, a returned
error, or a panic (an `unwrap` on `None`, or overflow-checked native
arithmetic); a panic aborts the whole transaction, so no state is persisted. -/
inductive RunResult (α : Type) where
  | ok : α → RunResult α
  | err : AccessError → RunResult α
  | panicked : RunResult α
  deriving DecidableEq, Repr

def U16_MOD : Nat := 2 ^ 16

def U64_MOD : Nat := 2 ^ 64

def U128_MOD : Nat := 2 ^ 128

/-- state.rs: `pub const SECONDS_IN_DAY: u64 = 3600 * 24;` -/
def SECONDS_IN_DAY : Nat := 3600 * 24

/-- state.rs: `pub const STAKER_MULTIPLIER: u64 = 80;` -/
def STAKER_MULTIPLIER : Nat := 80

/-- state.rs: `pub const OWNER_MULTIPLIER: u64 = 100 - STAKER_MULTIPLIER;` -/
def OWNER_MULTIPLIER : Nat := 100 - STAKER_MULTIPLIER

/-- state.rs: `pub const STAKE_BUFFER_LEN: u64 = 365;` -/
def STAKE_BUFFER_LEN : Nat := 365

/-- Rust `u64::checked_add`. -/
def checked_add_u64 (a b : Nat) : Option Nat :=
  if a + b < U64_MOD then some (a + b) else none

/-- Rust `u64::checked_sub`. -/
def checked_sub_u64 (a b : Nat) : Option Nat :=
  if b ≤ a then some (a - b) else none

/-- Rust `u128::checked_mul`. -/
def checked_mul_u128 (a b : Nat) : Option Nat :=
  if a * b < U128_MOD then some (a * b) else none

/-- Rust `u128::checked_div`: `none` exactly on division by zero. -/
def checked_div_u128 (a b : Nat) : Option Nat :=
  if b = 0 then none else some (a / b)

/-- A Solana public key, 32 bytes; the core only compares them. -/
abbrev Pubkey := List Nat

/-- state.rs `Tag`: the account-type discriminant stored as the first byte. -/
inductive Tag where
  | Uninitialized
  | StakePool
  | StakeAccount
  | InactiveBondAccount
  | BondAccount
  | CentralState
  | Deleted
  deriving DecidableEq, Repr

/-- The u8 value of each `Tag` variant (Rust `Tag::X as u8`, declaration
order starting at 0). -/
def Tag.toU8 : Tag → Nat
  | .Uninitialized => 0
  | .StakePool => 1
  | .StakeAccount => 2
  | .InactiveBondAccount => 3
  | .BondAccount => 4
  | .CentralState => 5
  | .Deleted => 6

/-- state.rs `StakePoolHeader` (the `_padding` bytes are omitted). -/
structure StakePoolHeader where
  tag : Nat
  nonce : Nat
  current_day_idx : Nat
  minimum_stake_amount : Nat
  total_staked : Nat
  last_crank_time : Int
  last_claimed_time : Int
  owner : Pubkey
  rewards_destination : Pubkey
  vault : Pubkey
  deriving DecidableEq, Repr

/-- state.rs `StakePool`: the header plus the `balances` slice of `u128`
day-balances (of length `STAKE_BUFFER_LEN`). -/
structure StakePool where
  header : StakePoolHeader
  balances : List Nat
  deriving DecidableEq, Repr

/-- state.rs `StakePoolHeader::close`: `self.tag = Tag::Deleted as u8`. -/
def StakePoolHeader.close (h : StakePoolHeader) : StakePoolHeader :=
  { h with tag := Tag.Deleted.toU8 }

/-- state.rs `StakePoolHeader::deposit`:
`self.total_staked = self.total_staked.checked_add(amount).unwrap()` —
the `unwrap` panics on u64 overflow, it does not return an error. -/
def StakePoolHeader.deposit (h : StakePoolHeader) (amount : Nat) :
    RunResult StakePoolHeader :=
  match checked_add_u64 h.total_staked amount with
  | some s => .ok { h with total_staked := s }
  | none => .panicked

/-- state.rs `StakePoolHeader::withdraw`:
`self.total_staked = self.total_staked.checked_sub(amount).unwrap()` —
the `unwrap` panics on u64 underflow, it does not return an error. -/
def StakePoolHeader.withdraw (h : StakePoolHeader) (amount : Nat) :
    RunResult StakePoolHeader :=
  match checked_sub_u64 h.total_staked amount with
  | some s => .ok { h with total_staked := s }
  | none => .panicked

/-- state.rs `StakePool::push_balances_buff` (lines 97–100): stores `val` at
`balances[(current_day_idx as u64 % STAKE_BUFFER_LEN) as usize]`, then runs
`current_day_idx += 1`.  The increment is native u16 arithmetic; under the
overflow-checked build profile it panics at 65535 (the Cargo profile is not
among the sources), modelled as a panic — the counter is never wrapped. -/
def StakePool.push_balances_buff (p : StakePool) (val : Nat) :
    RunResult StakePool :=
  if p.header.current_day_idx + 1 < U16_MOD then
    .ok { header := { p.header with current_day_idx := p.header.current_day_idx + 1 },
          balances := p.balances.set (p.header.current_day_idx % STAKE_BUFFER_LEN) val }
  else .panicked

/-- state.rs `StakeAccount`. -/
structure StakeAccount where
  tag : Nat
  owner : Pubkey
  stake_amount : Nat
  stake_pool : Pubkey
  last_claimed_time : Int
  pool_minimum_at_creation : Nat
  deriving DecidableEq, Repr

/-- state.rs `StakeAccount::deposit`:
`self.stake_amount = self.stake_amount.checked_add(amount).unwrap()` —
the `unwrap` panics on u64 overflow, it does not return an error. -/
def StakeAccount.deposit (a : StakeAccount) (amount : Nat) :
    RunResult StakeAccount :=
  match checked_add_u64 a.stake_amount amount with
  | some s => .ok { a with stake_amount := s }
  | none => .panicked

/-- state.rs `StakeAccount::withdraw`:
`self.stake_amount = self.stake_amount.checked_sub(amount).unwrap()` —
the `unwrap` panics on u64 underflow, it does not return an error. -/
def StakeAccount.withdraw (a : StakeAccount) (amount : Nat) :
    RunResult StakeAccount :=
  match checked_sub_u64 a.stake_amount amount with
  | some s => .ok { a with stake_amount := s }
  | none => .panicked

/-- state.rs `BondAccount`. -/
structure BondAccount where
  tag : Nat
  owner : Pubkey
  total_amount_sold : Nat
  total_staked : Nat
  total_quote_amount : Nat
  quote_mint : Pubkey
  seller_token_account : Pubkey
  unlock_start_date : Int
  unlock_period : Int
  unlock_amount : Nat
  last_unlock_time : Int
  total_unlocked_amount : Nat
  pool_minimum_at_creation : Nat
  stake_pool : Pubkey
  last_claimed_time : Int
  sellers : List Pubkey
  deriving DecidableEq, Repr

/-- state.rs `BondAccount::calc_unlock_amount` (lines 450–471).
`let unlock_amount = missed_periods * self.unlock_amount;` is plain u64
multiplication (a panic on overflow under the checked build); then
`total_unlocked_amount.checked_add(unlock_amount).ok_or(Overflow)?` is compared
with `total_amount_sold`, and in the clamping branch the code returns
`total_amount_sold.checked_sub(unlock_amount).ok_or(Overflow)?` — note it
subtracts the candidate `unlock_amount`, not `total_unlocked_amount`. -/
def BondAccount.calc_unlock_amount (b : BondAccount) (missed_periods : Nat) :
    RunResult Nat :=
  if missed_periods * b.unlock_amount < U64_MOD then
    let unlock_amount := missed_periods * b.unlock_amount
    match checked_add_u64 b.total_unlocked_amount unlock_amount with
    | none => .err .Overflow
    | some s =>
      if s > b.total_amount_sold then
        match checked_sub_u64 b.total_amount_sold unlock_amount with
        | none => .err .Overflow
        | some d => .ok d
      else .ok unlock_amount
  else .panicked

/-- Tag check of state.rs `StakePool::get_checked` (lines 81–95), over the
first stored byte: `if header.tag != Tag::StakePool as u8 && header.tag !=
Tag::Uninitialized as u8 { return Err(AccessError::DataTypeMismatch.into()) }`.
The cast of the remaining bytes into the balances slice is not modelled. -/
def StakePool.get_checked_tag (data0 : Nat) : Except AccessError Unit :=
  if data0 ≠ Tag.StakePool.toU8 ∧ data0 ≠ Tag.Uninitialized.toU8 then
    .error .DataTypeMismatch
  else .ok ()

/-- Tag check of state.rs `StakeAccount::from_account_info` (lines 231–238):
`if data[0] != Tag::StakeAccount as u8 && data[0] != Tag::Uninitialized as u8`.
Borsh deserialization of the remaining bytes is not modelled. -/
def StakeAccount.from_account_info_tag (data0 : Nat) : Except AccessError Unit :=
  if data0 ≠ Tag.StakeAccount.toU8 ∧ data0 ≠ Tag.Uninitialized.toU8 then
    .error .DataTypeMismatch
  else .ok ()

/-- Tag check of state.rs `CentralState::from_account_info` (lines 303–310):
`if data[0] != Tag::CentralState as u8 && data[0] != Tag::Uninitialized as u8`.
Borsh deserialization of the remaining bytes is not modelled. -/
def CentralState.from_account_info_tag (data0 : Nat) : Except AccessError Unit :=
  if data0 ≠ Tag.CentralState.toU8 ∧ data0 ≠ Tag.Uninitialized.toU8 then
    .error .DataTypeMismatch
  else .ok ()

/-- Tag check of state.rs `BondAccount::from_account_info` (lines 433–448):
the expected tag is `InactiveBondAccount` when `allow_inactive` and
`BondAccount` otherwise; `if data[0] != tag as u8 && data[0] !=
Tag::Uninitialized as u8 { return Err(DataTypeMismatch) }`. -/
def BondAccount.from_account_info_tag (allow_inactive : Bool) (data0 : Nat) :
    Except AccessError Unit :=
  if data0 ≠ (if allow_inactive then Tag.InactiveBondAccount else Tag.BondAccount).toU8 ∧
      data0 ≠ Tag.Uninitialized.toU8 then
    .error .DataTypeMismatch
  else .ok ()

/-- Modelled from the spec: `safe_downcast` lives in
src/smart-contract/program/src/utils.rs, which is not among the sources.
Spec §4.5 step 4: "The final wide (128-bit) result is downcast to the native
transfer unit; downcast failure (value too large) also fails with Overflow" —
so it narrows a u128 value to u64, `none` when the value does not fit. -/
def safe_downcast (n : Nat) : Option Nat :=
  if n < U64_MOD then some n else none

/-- Modelled from the spec: `calc_previous_balances_and_inflation` lives in
utils.rs, which is not among the sources.  Spec §4.5 steps 1–2: the number of
days elapsed since `last_claimed_time` (floor division by the day length,
bounded above by the 365-slot buffer), then an aggregate over those days of
each day's recorded pool balance; the exact per-day weighting is an open
question of the spec (§9) and is modelled as the plain sum of the recorded
balances of the elapsed days, read backwards from the current day index.
With zero elapsed days the aggregate is 0. -/
def calc_previous_balances_and_inflation (current_time last_claimed_time : Int)
    (pool : StakePool) : Nat :=
  let nb_days : Nat :=
    min ((current_time - last_claimed_time) / (SECONDS_IN_DAY : Int)).toNat
      STAKE_BUFFER_LEN
  ((List.range nb_days).map (fun i =>
    pool.balances.getD
      ((pool.header.current_day_idx + (STAKE_BUFFER_LEN - 1) - i) % STAKE_BUFFER_LEN)
      0)).sum

/-- The reward pipeline of claim_bond_rewards.rs lines 154–168, over the
aggregated `balances_and_inflation` figure: checked division by the reward
mint's supply, checked multiplication by `STAKER_MULTIPLIER`, checked division
by 100, checked multiplication by the bond's `total_staked`, checked division
by the pool's `total_staked`, then `safe_downcast`; every `None` becomes the
`Overflow` error (`.ok_or(MediaError::Overflow)?`), and the last division's
`None` flows into the downcast through `.and_then(safe_downcast)`. -/
def claim_rewards_calc (balances_and_inflation supply bond_total_staked
    pool_total_staked : Nat) : Except AccessError Nat :=
  match checked_div_u128 balances_and_inflation supply with
  | none => .error .Overflow
  | some x1 =>
    match checked_mul_u128 x1 STAKER_MULTIPLIER with
    | none => .error .Overflow
    | some x2 =>
      match checked_div_u128 x2 100 with
      | none => .error .Overflow
      | some x3 =>
        match checked_mul_u128 x3 bond_total_staked with
        | none => .error .Overflow
        | some x4 =>
          match (checked_div_u128 x4 pool_total_staked).bind safe_downcast with
          | none => .error .Overflow
          | some r => .ok r

/-- claim_bond_rewards.rs `process_claim_bond_rewards` (lines 114–195) over
the modelled state.  Account parsing, key/ownership/signer checks, the central
state load and the SPL transfer are external collaborators (spec §1) and are
not modelled; `supply` is the reward mint's current supply.  The pool is
loaded through `StakePool::get_checked` and the bond through
`BondAccount::from_account_info(.., false)`; on success the saved bond has
`last_claimed_time` assigned to `current_time` and the second component is the
transferred reward amount. -/
def process_claim_bond_rewards (current_time : Int) (supply : Nat)
    (pool : StakePool) (bond : BondAccount) :
    Except AccessError (BondAccount × Nat) :=
  match StakePool.get_checked_tag pool.header.tag with
  | .error e => .error e
  | .ok _ =>
    match BondAccount.from_account_info_tag false bond.tag with
    | .error e => .error e
    | .ok _ =>
      match claim_rewards_calc
          (calc_previous_balances_and_inflation current_time
            bond.last_claimed_time pool)
          supply bond.total_staked pool.header.total_staked with
      | .error e => .error e
      | .ok rewards => .ok ({ bond with last_claimed_time := current_time }, rewards)

/-- One on-chain execution of the bond reward claim: the persisted bond after
the transaction together with the outcome.  `bond.save` only runs at the end
of the success path, so on an error the stored bond is the one that was
loaded. -/
def claim_step (current_time : Int) (supply : Nat) (pool : StakePool)
    (bond : BondAccount) : BondAccount × Except AccessError Nat :=
  match process_claim_bond_rewards current_time supply pool bond with
  | .error e => (bond, .error e)
  | .ok (b, r) => (b, .ok r)

/-- Modelled from the spec: `assert_empty_stake_pool` lives in utils.rs, which
is not among the sources.  Spec §4.2: close is "allowed only when
total_staked == 0; ... Fails with PoolNotEmpty otherwise". -/
def assert_empty_stake_pool (pool : StakePoolHeader) : Except AccessError Unit :=
  if pool.total_staked = 0 then .ok () else .error .PoolNotEmpty

/-- close_stake_pool.rs `process_close_stake_pool` (lines 68–109) over the
pool state: account parsing, PDA derivation and owner checks are external and
not modelled.  The pool is loaded with `StakePool::from_account_info(..)
.unwrap()` — its tag check (accept `StakePool` or `Uninitialized`, else
`DataTypeMismatch`) is the same as `get_checked`'s, and the `unwrap` turns a
failed load into a panic.  Then `assert_empty_stake_pool` and
`stake_pool.close()`. -/
def process_close_stake_pool (pool : StakePoolHeader) :
    RunResult StakePoolHeader :=
  match StakePool.get_checked_tag pool.tag with
  | .error _ => .panicked
  | .ok _ =>
    match assert_empty_stake_pool pool with
    | .error e => .err e
    | .ok _ => .ok pool.close

/-- Modelled from the spec: the crank processor is not among the sources.
Spec §4.2 `crank`: "appends the pool's current total_staked into
balances[current_day_index mod 365], then increments current_day_index" —
exactly `push_balances_buff` applied to the pool's own `total_staked`
(`last_crank_time` bookkeeping is omitted). -/
def crank (p : StakePool) : RunResult StakePool :=
  p.push_balances_buff p.header.total_staked

/-- A run of `n` consecutive crank steps; a panicked step aborts the run. -/
def run_cranks (p : StakePool) (n : Nat) : RunResult StakePool :=
  match n with
  | 0 => .ok p
  | n + 1 =>
    match crank p with
    | .ok p' => run_cranks p' n
    | .err e => .err e
    | .panicked => .panicked

/-- The life of a bond as quantified by the spec's vesting invariant: each
successful `calc_unlock_amount` result is credited to `total_unlocked_amount`
before the next call; a failing call ends the run. -/
def run_unlock_calls (b : BondAccount) (calls : List Nat) : BondAccount :=
  match calls with
  | [] => b
  | m :: rest =>
    match b.calc_unlock_amount m with
    | .ok v =>
      run_unlock_calls { b with total_unlocked_amount := b.total_unlocked_amount + v } rest
    | _ => b

/-- A concrete bond with the given unlock schedule figures (the identity
fields play no role in the vesting arithmetic). -/
def mkBond (unlock_amount total_amount_sold total_unlocked_amount : Nat) :
    BondAccount :=
  { tag := Tag.BondAccount.toU8
    owner := []
    total_amount_sold := total_amount_sold
    total_staked := total_amount_sold
    total_quote_amount := 0
    quote_mint := []
    seller_token_account := []
    unlock_start_date := 0
    unlock_period := 1
    unlock_amount := unlock_amount
    last_unlock_time := 0
    total_unlocked_amount := total_unlocked_amount
    pool_minimum_at_creation := 0
    stake_pool := []
    last_claimed_time := 0
    sellers := [] }

/-- A concrete stake pool header. -/
def mkPoolHeader (tag current_day_idx total_staked : Nat) : StakePoolHeader :=
  { tag := tag
    nonce := 0
    current_day_idx := current_day_idx
    minimum_stake_amount := 0
    total_staked := total_staked
    last_crank_time := 0
    last_claimed_time := 0
    owner := []
    rewards_destination := []
    vault := [] }

/-- A concrete stake pool. -/
def mkPool (tag current_day_idx total_staked : Nat) (balances : List Nat) :
    StakePool :=
  { header := mkPoolHeader tag current_day_idx total_staked
    balances := balances }

/-- A concrete stake account with the given staked amount. -/
def mkStakeAccount (stake_amount : Nat) : StakeAccount :=
  { tag := Tag.StakeAccount.toU8
    owner := []
    stake_amount := stake_amount
    stake_pool := []
    last_claimed_time := 0
    pool_minimum_at_creation := 0 }

theorem checked_div_u128_of_ne (a b : Nat) (h : b ≠ 0) :
    checked_div_u128 a b = some (a / b) := by
  simp [checked_div_u128, h]

theorem checked_div_u128_zero_right (a : Nat) : checked_div_u128 a 0 = none := by
  simp [checked_div_u128]

theorem checked_mul_u128_of_lt (a b : Nat) (h : a * b < U128_MOD) :
    checked_mul_u128 a b = some (a * b) := by
  simp [checked_mul_u128, h]

theorem checked_mul_u128_of_ge (a b : Nat) (h : U128_MOD ≤ a * b) :
    checked_mul_u128 a b = none := by
  simp [checked_mul_u128, Nat.not_lt.mpr h]

/-- C1: for a bond with `unlock_amount = 100`, `total_amount_sold = 250`,
`total_unlocked_amount = 200` and `missed_periods = 1` — the spec's own worked
example — `calc_unlock_amount` returns 150 (`total_amount_sold` minus the
candidate), not the remaining unreleased balance
`total_amount_sold - total_unlocked_amount = 50` the claim states. -/
theorem calc_unlock_amount_spec_example_gives_150 :
    (mkBond 100 250 200).calc_unlock_amount 1 = RunResult.ok 150 ∧
    (mkBond 100 250 200).total_amount_sold
      - (mkBond 100 250 200).total_unlocked_amount = 50 ∧
    (RunResult.ok 150 : RunResult Nat) ≠ RunResult.ok 50 := by
  decide

/-- C2: a reachable run of successful `calc_unlock_amount` calls (a bond with
`unlock_amount = 100`, `total_amount_sold = 250`, starting unlocked total 0;
three calls of one missed period each, each result credited to
`total_unlocked_amount` before the next call) drives `total_unlocked_amount`
to 350, strictly above `total_amount_sold = 250`; the last nonzero call
returned 150, not the remainder 50 — the claimed bound and final-remainder
property fail on the code. -/
theorem unlock_run_total_exceeds_total_amount_sold :
    (run_unlock_calls (mkBond 100 250 0) [1, 1, 1]).total_unlocked_amount = 350 ∧
    (mkBond 100 250 0).total_amount_sold = 250 ∧
    (mkBond 100 250 0).calc_unlock_amount 1 = RunResult.ok 100 ∧
    (mkBond 100 250 100).calc_unlock_amount 1 = RunResult.ok 100 ∧
    (mkBond 100 250 200).calc_unlock_amount 1 = RunResult.ok 150 ∧
    350 > 250 := by
  decide

/-- C6 counterexample: at `total_staked = 2^64 - 1`, `deposit(1)` panics (the
`unwrap` of a `None` from `checked_add`) — it does not return the `Overflow`
error the claim names; likewise `withdraw(1)` on a stake account holding 0
panics instead of returning `Underflow`. -/
theorem deposit_withdraw_panic_not_error :
    (mkPoolHeader 1 0 (U64_MOD - 1)).deposit 1 = RunResult.panicked ∧
    (mkPoolHeader 1 0 (U64_MOD - 1)).deposit 1 ≠ RunResult.err AccessError.Overflow ∧
    (mkStakeAccount 0).withdraw 1 = RunResult.panicked ∧
    (mkStakeAccount 0).withdraw 1 ≠ RunResult.err AccessError.Underflow := by
  decide

/-- C6 (amended): pool and stake-account `deposit`/`withdraw` use checked
addition/subtraction and store the exact sum/difference when it fits in u64 —
never a wrapped or saturated value; past u64::MAX or below zero they panic
(the `unwrap` aborts the transaction, so the stored amount is unchanged)
rather than returning `Overflow`/`Underflow` errors. -/
theorem checked_deposit_withdraw_exact_or_panic (h : StakePoolHeader)
    (a : StakeAccount) (n : Nat) :
    (h.total_staked + n < U64_MOD →
      h.deposit n = .ok { h with total_staked := h.total_staked + n }) ∧
    (U64_MOD ≤ h.total_staked + n → h.deposit n = .panicked) ∧
    (n ≤ h.total_staked →
      h.withdraw n = .ok { h with total_staked := h.total_staked - n }) ∧
    (h.total_staked < n → h.withdraw n = .panicked) ∧
    (a.stake_amount + n < U64_MOD →
      a.deposit n = .ok { a with stake_amount := a.stake_amount + n }) ∧
    (U64_MOD ≤ a.stake_amount + n → a.deposit n = .panicked) ∧
    (n ≤ a.stake_amount →
      a.withdraw n = .ok { a with stake_amount := a.stake_amount - n }) ∧
    (a.stake_amount < n → a.withdraw n = .panicked) := by
  refine ⟨fun hc => ?_, fun hc => ?_, fun hc => ?_, fun hc => ?_,
    fun hc => ?_, fun hc => ?_, fun hc => ?_, fun hc => ?_⟩
  · simp [StakePoolHeader.deposit, checked_add_u64, hc]
  · simp [StakePoolHeader.deposit, checked_add_u64, Nat.not_lt.mpr hc]
  · simp [StakePoolHeader.withdraw, checked_sub_u64, hc]
  · simp [StakePoolHeader.withdraw, checked_sub_u64, Nat.not_le.mpr hc]
  · simp [StakeAccount.deposit, checked_add_u64, hc]
  · simp [StakeAccount.deposit, checked_add_u64, Nat.not_lt.mpr hc]
  · simp [StakeAccount.withdraw, checked_sub_u64, hc]
  · simp [StakeAccount.withdraw, checked_sub_u64, Nat.not_le.mpr hc]

/-- Witness for the amended C6 theorem at concrete inputs: an in-range deposit
stores the exact sum, a deposit at u64::MAX panics, an in-range withdraw
stores the exact difference, a withdraw past the balance panics. -/
theorem checked_deposit_withdraw_app :
    (mkPoolHeader 1 0 5).deposit 7
      = RunResult.ok { mkPoolHeader 1 0 5 with total_staked := 5 + 7 } ∧
    (mkPoolHeader 1 0 (U64_MOD - 1)).deposit 1 = RunResult.panicked ∧
    (mkStakeAccount 5).withdraw 2
      = RunResult.ok { mkStakeAccount 5 with stake_amount := 5 - 2 } ∧
    (mkStakeAccount 0).withdraw 1 = RunResult.panicked := by
  refine ⟨?_, ?_, ?_, ?_⟩
  · exact (checked_deposit_withdraw_exact_or_panic (mkPoolHeader 1 0 5)
      (mkStakeAccount 5) 7).1 (by decide)
  · exact (checked_deposit_withdraw_exact_or_panic
      (mkPoolHeader 1 0 (U64_MOD - 1)) (mkStakeAccount 5) 1).2.1 (by decide)
  · exact (checked_deposit_withdraw_exact_or_panic (mkPoolHeader 1 0 5)
      (mkStakeAccount 5) 2).2.2.2.2.2.2.1 (by decide)
  · exact (checked_deposit_withdraw_exact_or_panic (mkPoolHeader 1 0 5)
      (mkStakeAccount 0) 1).2.2.2.2.2.2.2 (by decide)

theorem tag_guard_error_iff (e d : Nat) :
    (if d ≠ e ∧ d ≠ Tag.Uninitialized.toU8 then
        (Except.error AccessError.DataTypeMismatch : Except AccessError Unit)
      else .ok ())
      = .error .DataTypeMismatch ↔ (d ≠ e ∧ d ≠ Tag.Uninitialized.toU8) := by
  split_ifs with hc
  · simpa using hc
  · simpa using hc

/-- C10: each loader's tag check rejects with `DataTypeMismatch` exactly when
the first stored byte is neither the loader's expected tag (for bonds:
`InactiveBondAccount` when `allow_inactive`, else `BondAccount`) nor
`Uninitialized`; in particular a byte holding the `Uninitialized` tag passes
the tag check of every loader. -/
theorem loader_tag_checks_accept_uninit_tag (d : Nat) (ai : Bool) :
    (StakePool.get_checked_tag d = .error .DataTypeMismatch ↔
      (d ≠ Tag.StakePool.toU8 ∧ d ≠ Tag.Uninitialized.toU8)) ∧
    (StakeAccount.from_account_info_tag d = .error .DataTypeMismatch ↔
      (d ≠ Tag.StakeAccount.toU8 ∧ d ≠ Tag.Uninitialized.toU8)) ∧
    (CentralState.from_account_info_tag d = .error .DataTypeMismatch ↔
      (d ≠ Tag.CentralState.toU8 ∧ d ≠ Tag.Uninitialized.toU8)) ∧
    (BondAccount.from_account_info_tag ai d = .error .DataTypeMismatch ↔
      (d ≠ (if ai then Tag.InactiveBondAccount else Tag.BondAccount).toU8 ∧
        d ≠ Tag.Uninitialized.toU8)) ∧
    (StakePool.get_checked_tag Tag.Uninitialized.toU8 = .ok () ∧
      StakeAccount.from_account_info_tag Tag.Uninitialized.toU8 = .ok () ∧
      CentralState.from_account_info_tag Tag.Uninitialized.toU8 = .ok () ∧
      BondAccount.from_account_info_tag ai Tag.Uninitialized.toU8 = .ok ()) := by
  refine ⟨tag_guard_error_iff Tag.StakePool.toU8 d,
    tag_guard_error_iff Tag.StakeAccount.toU8 d,
    tag_guard_error_iff Tag.CentralState.toU8 d,
    tag_guard_error_iff (if ai then Tag.InactiveBondAccount else Tag.BondAccount).toU8 d,
    rfl, rfl, rfl, ?_⟩
  cases ai <;> rfl

/-- C3: the bond reward payout is computed from the aggregated
balance-and-inflation figure by checked division by the mint supply, checked
multiplication by `STAKER_MULTIPLIER = 80`, checked division by 100, checked
multiplication by the bond's `total_staked`, and checked division by the
pool's `total_staked`, in that order; a division by zero or an overflow at any
of these steps makes the computation fail with `Overflow`, and when every step
is in range the result is exactly the nested quotient. -/
theorem claim_rewards_pipeline_checked (agg supply b p : Nat) :
    (supply = 0 → claim_rewards_calc agg supply b p = .error .Overflow) ∧
    (U128_MOD ≤ agg / supply * STAKER_MULTIPLIER →
      claim_rewards_calc agg supply b p = .error .Overflow) ∧
    (U128_MOD ≤ agg / supply * STAKER_MULTIPLIER / 100 * b →
      claim_rewards_calc agg supply b p = .error .Overflow) ∧
    (supply ≠ 0 → p = 0 →
      agg / supply * STAKER_MULTIPLIER < U128_MOD →
      agg / supply * STAKER_MULTIPLIER / 100 * b < U128_MOD →
      claim_rewards_calc agg supply b p = .error .Overflow) ∧
    (supply ≠ 0 → p ≠ 0 →
      agg / supply * STAKER_MULTIPLIER < U128_MOD →
      agg / supply * STAKER_MULTIPLIER / 100 * b < U128_MOD →
      agg / supply * STAKER_MULTIPLIER / 100 * b / p < U64_MOD →
      claim_rewards_calc agg supply b p
        = .ok (agg / supply * STAKER_MULTIPLIER / 100 * b / p)) := by
  refine ⟨?_, ?_, ?_, ?_, ?_⟩
  · intro hs
    subst hs
    simp [claim_rewards_calc, checked_div_u128]
  · intro h1
    by_cases hs : supply = 0
    · subst hs
      simp [claim_rewards_calc, checked_div_u128]
    · simp [claim_rewards_calc, checked_div_u128_of_ne _ _ hs,
        checked_mul_u128_of_ge _ _ h1]
  · intro h2
    by_cases hs : supply = 0
    · subst hs
      simp [claim_rewards_calc, checked_div_u128]
    · by_cases h1 : agg / supply * STAKER_MULTIPLIER < U128_MOD
      · simp [claim_rewards_calc, checked_div_u128_of_ne _ _ hs,
          checked_mul_u128_of_lt _ _ h1,
          checked_div_u128_of_ne _ 100 (by norm_num),
          checked_mul_u128_of_ge _ _ h2]
      · simp [claim_rewards_calc, checked_div_u128_of_ne _ _ hs,
          checked_mul_u128_of_ge _ _ (Nat.le_of_not_lt h1)]
  · intro hs hp h1 h2
    subst hp
    simp [claim_rewards_calc, checked_div_u128, hs,
      checked_mul_u128_of_lt _ _ h1, checked_mul_u128_of_lt _ _ h2]
  · intro hs hp h1 h2 h3
    simp [claim_rewards_calc, checked_div_u128_of_ne _ _ hs,
      checked_mul_u128_of_lt _ _ h1,
      checked_div_u128_of_ne _ 100 (by norm_num),
      checked_mul_u128_of_lt _ _ h2,
      checked_div_u128_of_ne _ _ hp, safe_downcast, h3]

/-- Witness for C3 at the spec's §8 example figures: supply 0 fails with
Overflow, and 50000 / 10000 * 80 / 100 * 200 / 1000 computes to 0 (truncating
integer arithmetic). -/
theorem claim_rewards_pipeline_app :
    claim_rewards_calc 50000 0 200 1000 = .error .Overflow ∧
    claim_rewards_calc 50000 10000 200 1000 = .ok 0 :=
  ⟨(claim_rewards_pipeline_checked 50000 0 200 1000).1 rfl,
    (claim_rewards_pipeline_checked 50000 10000 200 1000).2.2.2.2
      (by decide) (by decide) (by decide) (by decide) (by decide)⟩

/-- C4: the final wide reward value is narrowed by `safe_downcast` to the
64-bit transfer unit — a fitting value is kept exactly, a value of at least
2^64 makes the whole pipeline fail with `Overflow`; and whenever the claim
operation fails, the persisted bond is the one that was loaded (the save only
runs on success), so `last_claimed_time` keeps its prior value. -/
theorem claim_downcast_overflow_and_atomicity (t : Int) (supply : Nat)
    (pool : StakePool) (bond : BondAccount) :
    (∀ n : Nat, n < U64_MOD → safe_downcast n = some n) ∧
    (∀ agg b p : Nat, supply ≠ 0 → p ≠ 0 →
      agg / supply * STAKER_MULTIPLIER < U128_MOD →
      agg / supply * STAKER_MULTIPLIER / 100 * b < U128_MOD →
      U64_MOD ≤ agg / supply * STAKER_MULTIPLIER / 100 * b / p →
      claim_rewards_calc agg supply b p = .error .Overflow) ∧
    (∀ e : AccessError, (claim_step t supply pool bond).2 = .error e →
      (claim_step t supply pool bond).1 = bond ∧
      (claim_step t supply pool bond).1.last_claimed_time
        = bond.last_claimed_time) := by
  refine ⟨?_, ?_, ?_⟩
  · intro n hn
    simp [safe_downcast, hn]
  · intro agg b p hs hp h1 h2 h3
    simp [claim_rewards_calc, checked_div_u128_of_ne _ _ hs,
      checked_mul_u128_of_lt _ _ h1,
      checked_div_u128_of_ne _ 100 (by norm_num),
      checked_mul_u128_of_lt _ _ h2,
      checked_div_u128_of_ne _ _ hp, safe_downcast, Nat.not_lt.mpr h3]
  · intro e he
    rcases hpr : process_claim_bond_rewards t supply pool bond with e' | v
    · simp [claim_step, hpr]
    · exfalso
      rcases v with ⟨b', r⟩
      simp [claim_step, hpr] at he

/-- Witness for C4: a quotient of at least 2^64 fails with Overflow, a claim
that fails (here: mint supply 0) leaves the loaded bond untouched, and a
fitting value downcasts to itself. -/
theorem claim_downcast_atomicity_app :
    safe_downcast 7 = some 7 ∧
    claim_rewards_calc (2 ^ 70) 1 1 1 = .error .Overflow ∧
    (claim_step 0 0 (mkPool 1 0 0 []) (mkBond 100 250 0)).1 = mkBond 100 250 0 := by
  refine ⟨?_, ?_, ?_⟩
  · exact (claim_downcast_overflow_and_atomicity 0 1 (mkPool 1 0 0 [])
      (mkBond 100 250 0)).1 7 (by decide)
  · exact (claim_downcast_overflow_and_atomicity 0 1 (mkPool 1 0 0 [])
      (mkBond 100 250 0)).2.1 (2 ^ 70) 1 1 (by decide) (by decide)
      (by decide) (by decide) (by decide)
  · exact ((claim_downcast_overflow_and_atomicity 0 0 (mkPool 1 0 0 [])
      (mkBond 100 250 0)).2.2 .Overflow (by rfl)).1

theorem calc_previous_balances_and_inflation_self (t : Int) (pool : StakePool) :
    calc_previous_balances_and_inflation t t pool = 0 := by
  simp [calc_previous_balances_and_inflation]

theorem claim_rewards_calc_p_zero (agg supply b : Nat) :
    claim_rewards_calc agg supply b 0 = .error .Overflow := by
  rw [claim_rewards_calc]
  split
  · rfl
  · split
    · rfl
    · split
      · rfl
      · split
        · rfl
        · simp [checked_div_u128]

theorem claim_rewards_calc_ok_nonzero (agg supply b p r : Nat)
    (h : claim_rewards_calc agg supply b p = .ok r) : supply ≠ 0 ∧ p ≠ 0 := by
  constructor
  · rintro rfl
    simp [claim_rewards_calc, checked_div_u128] at h
  · rintro rfl
    rw [claim_rewards_calc_p_zero] at h
    simp at h

theorem claim_rewards_calc_zero (supply b p : Nat) (hs : supply ≠ 0)
    (hp : p ≠ 0) : claim_rewards_calc 0 supply b p = .ok 0 := by
  have h1 : checked_div_u128 0 supply = some 0 := by
    simp [checked_div_u128, hs]
  have h2 : checked_mul_u128 0 STAKER_MULTIPLIER = some 0 := by
    simp [checked_mul_u128, U128_MOD]
  have h3 : checked_div_u128 0 100 = some 0 := by
    simp [checked_div_u128]
  have h4 : checked_mul_u128 0 b = some 0 := by
    simp [checked_mul_u128, U128_MOD]
  have h5 : checked_div_u128 0 p = some 0 := by
    simp [checked_div_u128, hp]
  simp [claim_rewards_calc, h1, h2, h3, h4, h5, safe_downcast, U64_MOD]

/-- C5: a successful bond reward claim assigns the current timestamp to the
bond's `last_claimed_time` (it is set, not incremented), and a second claim
run at that same timestamp with no other state change succeeds with a reward
of exactly zero (and leaves the bond as it is). -/
theorem second_claim_same_timestamp_yields_zero (t : Int) (supply : Nat)
    (pool : StakePool) (bond b : BondAccount) (r : Nat)
    (h : process_claim_bond_rewards t supply pool bond = .ok (b, r)) :
    b.last_claimed_time = t ∧
    process_claim_bond_rewards t supply pool b = .ok (b, 0) := by
  rw [process_claim_bond_rewards] at h
  rcases h1 : StakePool.get_checked_tag pool.header.tag with e1 | u1 <;>
    rw [h1] at h
  · simp at h
  rcases h2 : BondAccount.from_account_info_tag false bond.tag with e2 | u2 <;>
    rw [h2] at h
  · simp at h
  rcases h3 : claim_rewards_calc
      (calc_previous_balances_and_inflation t bond.last_claimed_time pool)
      supply bond.total_staked pool.header.total_staked with e3 | r3 <;>
    rw [h3] at h
  · simp at h
  obtain ⟨hb, hr⟩ : { bond with last_claimed_time := t } = b ∧ r3 = r := by
    simpa using h
  subst hb
  obtain ⟨hs, hp⟩ := claim_rewards_calc_ok_nonzero _ _ _ _ _ h3
  refine ⟨rfl, ?_⟩
  rw [process_claim_bond_rewards, h1]
  have h2' : BondAccount.from_account_info_tag false
      ({ bond with last_claimed_time := t } : BondAccount).tag = .ok u2 := h2
  rw [h2']
  have hagg : calc_previous_balances_and_inflation t
      ({ bond with last_claimed_time := t } : BondAccount).last_claimed_time pool
      = 0 := calc_previous_balances_and_inflation_self t pool
  rw [hagg, claim_rewards_calc_zero _ _ _ hs hp]

def bondW : BondAccount := mkBond 100 250 0

def bondW2 : BondAccount := { bondW with last_claimed_time := 86400 }

def poolW : StakePool := mkPool 1 0 1 []

/-- Witness for C5 at a concrete state: a claim at time 86400 (one day after
the bond's last claim at 0, mint supply 1, pool stake 1) succeeds; the saved
bond carries `last_claimed_time = 86400` and a repeated claim at 86400
succeeds with reward 0. -/
theorem second_claim_same_timestamp_app :
    bondW2.last_claimed_time = 86400 ∧
    process_claim_bond_rewards 86400 1 poolW bondW2 = .ok (bondW2, 0) :=
  second_claim_same_timestamp_yields_zero 86400 1 poolW bondW bondW2 0 (by rfl)

/-- C7: closing a stake pool succeeds exactly on zero stake — success implies
`total_staked = 0` and turns the tag into `Deleted`; on an active pool with
nonzero stake it fails with `PoolNotEmpty` (no new state is produced); and a
`Deleted` tag fails the tag check of every loader with `DataTypeMismatch`, so
no further operation (the close processor included) succeeds against the
account. -/
theorem close_stake_pool_only_when_empty (pool : StakePoolHeader) :
    (∀ p', process_close_stake_pool pool = .ok p' →
      pool.total_staked = 0 ∧ p' = { pool with tag := Tag.Deleted.toU8 }) ∧
    (pool.tag = Tag.StakePool.toU8 → pool.total_staked = 0 →
      process_close_stake_pool pool = .ok { pool with tag := Tag.Deleted.toU8 }) ∧
    (pool.tag = Tag.StakePool.toU8 → pool.total_staked ≠ 0 →
      process_close_stake_pool pool = .err .PoolNotEmpty) ∧
    (pool.tag = Tag.Deleted.toU8 →
      StakePool.get_checked_tag pool.tag = .error .DataTypeMismatch ∧
      StakeAccount.from_account_info_tag pool.tag = .error .DataTypeMismatch ∧
      CentralState.from_account_info_tag pool.tag = .error .DataTypeMismatch ∧
      BondAccount.from_account_info_tag true pool.tag = .error .DataTypeMismatch ∧
      BondAccount.from_account_info_tag false pool.tag = .error .DataTypeMismatch ∧
      process_close_stake_pool pool = .panicked) := by
  refine ⟨?_, ?_, ?_, ?_⟩
  · intro p' hp'
    rw [process_close_stake_pool] at hp'
    rcases h1 : StakePool.get_checked_tag pool.tag with e1 | u1 <;> rw [h1] at hp'
    · simp at hp'
    rw [assert_empty_stake_pool] at hp'
    by_cases hz : pool.total_staked = 0
    · rw [if_pos hz] at hp'
      refine ⟨hz, ?_⟩
      have h2 : StakePoolHeader.close pool = p' := by simpa using hp'
      rw [← h2, StakePoolHeader.close]
    · rw [if_neg hz] at hp'
      simp at hp'
  · intro htag hz
    rw [process_close_stake_pool]
    have h1 : StakePool.get_checked_tag pool.tag = .ok () := by
      rw [htag]
      rfl
    rw [h1, assert_empty_stake_pool, if_pos hz]
    rw [StakePoolHeader.close]
  · intro htag hz
    rw [process_close_stake_pool]
    have h1 : StakePool.get_checked_tag pool.tag = .ok () := by
      rw [htag]
      rfl
    rw [h1, assert_empty_stake_pool, if_neg hz]
  · intro htag
    rw [htag]
    refine ⟨by rfl, by rfl, by rfl, by rfl, by rfl, ?_⟩
    rw [process_close_stake_pool, htag]
    rfl

/-- Witness for C7 at concrete pools: closing an empty active pool succeeds
with tag `Deleted`, closing one with stake 5 fails with `PoolNotEmpty`,
re-closing a deleted pool aborts, and the deleted tag fails the pool loader
with `DataTypeMismatch`. -/
theorem close_stake_pool_app :
    process_close_stake_pool (mkPoolHeader 1 0 0)
      = .ok { mkPoolHeader 1 0 0 with tag := Tag.Deleted.toU8 } ∧
    process_close_stake_pool (mkPoolHeader 1 0 5) = .err .PoolNotEmpty ∧
    process_close_stake_pool (mkPoolHeader 6 0 0) = .panicked ∧
    StakePool.get_checked_tag (mkPoolHeader 6 0 0).tag
      = .error .DataTypeMismatch := by
  refine ⟨?_, ?_, ?_, ?_⟩
  · exact (close_stake_pool_only_when_empty (mkPoolHeader 1 0 0)).2.1 rfl rfl
  · exact (close_stake_pool_only_when_empty (mkPoolHeader 1 0 5)).2.2.1 rfl
      (by decide)
  · exact ((close_stake_pool_only_when_empty (mkPoolHeader 6 0 0)).2.2.2 rfl).2.2.2.2.2
  · exact ((close_stake_pool_only_when_empty (mkPoolHeader 6 0 0)).2.2.2 rfl).1

theorem push_balances_buff_ok (p : StakePool) (val : Nat) (p' : StakePool)
    (h : p.push_balances_buff val = .ok p') :
    p' = { header := { p.header with
             current_day_idx := p.header.current_day_idx + 1 },
           balances := p.balances.set
             (p.header.current_day_idx % STAKE_BUFFER_LEN) val } := by
  rw [StakePool.push_balances_buff] at h
  split_ifs at h with hb
  exact (RunResult.ok.injEq _ _).mp h.symm

/-- C8: a crank step writes the pool's current `total_staked` into
`balances[current_day_idx % 365]` and then increments `current_day_idx` by
one; the buffer keeps its length (it is never resized), and the write index
is periodic with period `STAKE_BUFFER_LEN = 365` — the write made 365 steps
later lands on the very same slot, so at most 365 historical days stay
retrievable. -/
theorem crank_writes_current_total_staked (p : StakePool) (p' : StakePool)
    (h : crank p = .ok p') :
    p'.balances = p.balances.set (p.header.current_day_idx % STAKE_BUFFER_LEN)
      p.header.total_staked ∧
    p'.header.current_day_idx = p.header.current_day_idx + 1 ∧
    p'.balances.length = p.balances.length ∧
    (∀ c : Nat, (c + STAKE_BUFFER_LEN) % STAKE_BUFFER_LEN
      = c % STAKE_BUFFER_LEN) := by
  rw [crank] at h
  have hp' := push_balances_buff_ok p p.header.total_staked p' h
  subst hp'
  refine ⟨rfl, rfl, List.length_set .., fun c => Nat.add_mod_right c _⟩

def poolC : StakePool := mkPool 1 3 7 (List.replicate 365 0)

def poolC' : StakePool :=
  { header := { poolC.header with current_day_idx := 4 }
    balances := (List.replicate 365 0).set 3 7 }

set_option maxRecDepth 4096 in
/-- Witness for C8 at a concrete pool (day index 3, total stake 7, a fresh
365-slot buffer): the crank writes 7 into slot 3 and moves the index to 4,
keeping 365 slots. -/
theorem crank_writes_app :
    poolC'.balances = poolC.balances.set
      (poolC.header.current_day_idx % STAKE_BUFFER_LEN)
      poolC.header.total_staked ∧
    poolC'.header.current_day_idx = poolC.header.current_day_idx + 1 ∧
    poolC'.balances.length = poolC.balances.length ∧
    (∀ c : Nat, (c + STAKE_BUFFER_LEN) % STAKE_BUFFER_LEN
      = c % STAKE_BUFFER_LEN) :=
  crank_writes_current_total_staked poolC poolC' (by decide)

/-- C9: the stored `current_day_idx` never decreases.  A successful
`push_balances_buff` sets it to exactly its former value plus one — strictly
greater; the modulo-365 reduction is applied only to the buffer write index,
never to the stored counter; and along any run of consecutive crank steps the
counter is non-decreasing. -/
theorem current_day_idx_never_decreases (p : StakePool) (n : Nat) :
    (∀ val p', p.push_balances_buff val = .ok p' →
      p'.header.current_day_idx = p.header.current_day_idx + 1 ∧
      p.header.current_day_idx < p'.header.current_day_idx) ∧
    (∀ p', run_cranks p n = .ok p' →
      p.header.current_day_idx ≤ p'.header.current_day_idx) := by
  constructor
  · intro val p' h
    have hp' := push_balances_buff_ok p val p' h
    subst hp'
    exact ⟨rfl, Nat.lt_succ_self _⟩
  · induction n generalizing p with
    | zero =>
      intro p' h
      rw [run_cranks] at h
      obtain rfl : p = p' := (RunResult.ok.injEq _ _).mp h
      exact Nat.le_refl _
    | succ n ih =>
      intro p' h
      rw [run_cranks] at h
      rcases hc : crank p with q | e | _ <;> rw [hc] at h
      · have hq := push_balances_buff_ok p p.header.total_staked q hc
        have h1 : p.header.current_day_idx ≤ q.header.current_day_idx := by
          subst hq
          exact Nat.le_succ _
        exact Nat.le_trans h1 (ih q p' h)
      · simp at h
      · simp at h

def poolM : StakePool := mkPool 1 0 0 (List.replicate 365 0)

def poolM1 : StakePool :=
  { header := { poolM.header with current_day_idx := 1 }
    balances := List.replicate 365 0 }

def poolM3 : StakePool :=
  { header := { poolM.header with current_day_idx := 3 }
    balances := List.replicate 365 0 }

set_option maxRecDepth 8192 in
/-- Witness for C9 at a concrete pool: one push moves the counter from 0 to
1 (strictly up), and a run of three cranks leaves it at 3 ≥ 0. -/
theorem current_day_idx_app :
    poolM1.header.current_day_idx = poolM.header.current_day_idx + 1 ∧
    poolM.header.current_day_idx < poolM1.header.current_day_idx ∧
    poolM.header.current_day_idx ≤ poolM3.header.current_day_idx := by
  obtain ⟨h1, h2⟩ :=
    (current_day_idx_never_decreases poolM 3).1 0 poolM1 (by decide)
  exact ⟨h1, h2, (current_day_idx_never_decreases poolM 3).2 poolM3 (by decide)⟩
